import Mathlib

/-!
Verification of the test-session workflow and scoring engine of the
raggemini repository (book-chapter quiz application).

The definitions below are a shallow embedding of the Python sources:

* `scoringOf`            — the `SCORING` dict in `src/config.py`;
* `evaluateAnswer`, `evaluateMcqAnswer`, `evaluateSubjectiveAnswer`,
  `fallbackEvaluation`  — `AnswerEvaluator` in
  `src/components/answer_evaluator.py` (the ScoringEngine);
* `calculateTestScore`, `calculateAnalytics`, `getGrade`
                        — the aggregation methods of the same class;
* `selectForType`, `selectQuestions`, `totalMarks`
                        — the question-selection logic of
                          `configure_test_page` in `app.py` (TestBuilder);
* `takeTestStep`        — the per-interaction timer/navigation logic of
  `take_test_page` / `finish_test` in `app.py` (TestSession timeout).

The external LLM grading call (`MistralAPI.generate_completion` plus the
JSON extraction in `_evaluate_subjective_answer`) is modelled by the
`AIResponse` type: `failure` is a `None`/empty reply, `unparseable` is a
reply whose JSON extraction or field access raises, and `parsed ev` is a
successfully parsed evaluation dict with numeric score `ev.score`.
The random draw `random.sample(population, k)` in `configure_test_page`
is modelled by an arbitrary duplicate-free list of in-range indices.
-/

namespace RagGemini

/-- The `SCORING` dict of `src/config.py`: mark value per question type,
with default 1 (`SCORING.get(question_type, 1)`). -/
def scoringOf (questionType : String) : Nat :=
  if questionType = "mcq" then 1
  else if questionType = "1_mark" then 1
  else if questionType = "2_mark" then 2
  else if questionType = "3_mark" then 3
  else if questionType = "5_mark" then 5
  else 1

/-- A question record as consumed by `AnswerEvaluator`: only the fields the
evaluator reads for its outcome (`question['correct_answer']`,
`question.get('explanation', ...)`, and the prompt text). -/
structure Question where
  question : String
  correct_answer : String
  explanation : Option String
deriving Repr, DecidableEq

/-- A successfully parsed external-evaluation dict, as read by
`_evaluate_subjective_answer` after `json.loads`: `evaluation.get('score', 0)`
(numeric), `evaluation.get('detailed_feedback', ...)`,
`evaluation.get('suggestions', ...)`. -/
structure AIEval where
  score : Int
  detailed_feedback : String
  suggestions : String
deriving Repr, DecidableEq

/-- Outcome of the external grading call in `_evaluate_subjective_answer`:
`failure` when `generate_completion` returns `None`/falsy, `unparseable`
when JSON extraction or parsing raises, `parsed` when a dict was obtained. -/
inductive AIResponse where
  | failure
  | unparseable
  | parsed (ev : AIEval)
deriving Repr, DecidableEq

/-- Python `str.upper()` on the ASCII option labels and answers handled by
the evaluator: uppercase each character. -/
def pyUpper (s : String) : String := ⟨s.data.map Char.toUpper⟩

/-- Python `str.strip()`: drop whitespace from both ends. -/
def pyStrip (s : String) : String :=
  ⟨((s.data.dropWhile Char.isWhitespace).reverse.dropWhile Char.isWhitespace).reverse⟩

/-- Helper for `pyWords`: scan the characters, accumulating the current word
(reversed) and emitting it at each whitespace run or at the end. -/
def pyWordsAux : List Char → List Char → List String
  | cur, [] => if cur.isEmpty then [] else [⟨cur.reverse⟩]
  | cur, c :: rest =>
    if c.isWhitespace then
      if cur.isEmpty then pyWordsAux [] rest
      else (⟨cur.reverse⟩ : String) :: pyWordsAux [] rest
    else pyWordsAux (c :: cur) rest

/-- Python `str.split()` with no separator: split on whitespace runs,
discarding empty pieces. -/
def pyWords (s : String) : List String :=
  pyWordsAux [] s.data

/-- A per-question evaluation result dict produced by `AnswerEvaluator`
(`score`, `max_score`, `correct`, `feedback`, `suggestions`,
`evaluation_type`, and the MCQ-only `user_answer` / `correct_answer`). -/
structure EvalResult where
  score : Int
  max_score : Nat
  correct : Bool
  feedback : String
  suggestions : String
  evaluation_type : String
  user_answer : Option String
  correct_answer : Option String
deriving Repr, DecidableEq

/-- `AnswerEvaluator._evaluate_mcq_answer`: compare the uppercased labels;
score 1 of 1 on a match, else 0; deterministic feedback either way. -/
def evaluateMcqAnswer (question : Question) (userAnswer : String) : EvalResult :=
  let correctAnswer := pyUpper question.correct_answer
  let ua := pyUpper userAnswer
  let isCorrect := ua == correctAnswer
  { score := if isCorrect then 1 else 0
    max_score := 1
    correct := isCorrect
    evaluation_type := "mcq"
    correct_answer := some correctAnswer
    user_answer := some ua
    feedback :=
      if isCorrect then "Correct! " ++ question.explanation.getD "Good job!"
      else "Incorrect. The correct answer is " ++ correctAnswer ++ ". "
             ++ question.explanation.getD ""
    suggestions :=
      if isCorrect then "Well done! Keep up the good work."
      else "Review the topic and try to understand the concepts better." }

/-- `AnswerEvaluator._fallback_evaluation`: word-count heuristic
`min(max_marks, max(0, len(user_answer.split()) // 10))`. -/
def fallbackEvaluation (question : Question) (userAnswer : String)
    (questionType : String) : EvalResult :=
  let maxMarks := scoringOf questionType
  let score := min maxMarks (max 0 ((pyWords userAnswer).length / 10))
  { score := (score : Int)
    max_score := maxMarks
    correct := score == maxMarks
    evaluation_type := "fallback"
    feedback := "Automatic evaluation failed. Manual review recommended."
    suggestions := "Please review your answer and ensure it addresses all parts of the question."
    user_answer := none
    correct_answer := none }

/-- `AnswerEvaluator._evaluate_subjective_answer`: on a parsed reply, clamp
the numeric score with `max(0, min(score, max_marks))`; on a falsy reply or
a parsing failure, fall back to `_fallback_evaluation`. -/
def evaluateSubjectiveAnswer (question : Question) (userAnswer : String)
    (questionType : String) (resp : AIResponse) : EvalResult :=
  let maxMarks := scoringOf questionType
  match resp with
  | .parsed ev =>
      let score : Int := max 0 (min ev.score (maxMarks : Int))
      { score := score
        max_score := maxMarks
        correct := score == (maxMarks : Int)
        evaluation_type := "subjective"
        feedback := ev.detailed_feedback
        suggestions := ev.suggestions
        user_answer := none
        correct_answer := none }
  | _ => fallbackEvaluation question userAnswer questionType

/-- `AnswerEvaluator.evaluate_answer`: skipped questions, then blank
answers, then MCQ, then subjective via the external call (`resp`). -/
def evaluateAnswer (question : Question) (userAnswer : String)
    (questionType : String) (isSkipped : Bool) (resp : AIResponse) : EvalResult :=
  if isSkipped then
    { score := 0
      max_score := scoringOf questionType
      correct := false
      feedback := "Question was skipped."
      suggestions := "Try to attempt all questions for better score."
      evaluation_type := "skipped"
      user_answer := none
      correct_answer := none }
  else if userAnswer = "" ∨ pyStrip userAnswer = "" then
    { score := 0
      max_score := scoringOf questionType
      correct := false
      feedback := "No answer provided."
      suggestions := "Please provide an answer."
      evaluation_type := "no_answer"
      user_answer := none
      correct_answer := none }
  else if questionType = "mcq" then
    evaluateMcqAnswer question userAnswer
  else
    evaluateSubjectiveAnswer question userAnswer questionType resp

/-- The analytics dict of `AnswerEvaluator._calculate_analytics`
(`attempted` counts every result whose `evaluation_type` is not
`'skipped'`, so `no_answer` results are counted as attempted). -/
structure Analytics where
  total_questions : Nat
  attempted : Nat
  skipped : Nat
  correct : Nat
deriving Repr, DecidableEq

/-- `AnswerEvaluator._calculate_analytics` (overall counters; the
per-`evaluation_type` breakdown is not needed by any property here). -/
def calculateAnalytics (results : List EvalResult) : Analytics :=
  { total_questions := results.length
    attempted := (results.filter (fun r => !(r.evaluation_type == "skipped"))).length
    skipped := (results.filter (fun r => r.evaluation_type == "skipped")).length
    correct := (results.filter (fun r => r.correct)).length }

/-- `AnswerEvaluator._get_grade`: six grade bands over the percentage. -/
def getGrade (percentage : ℚ) : String :=
  if percentage ≥ 90 then "A+"
  else if percentage ≥ 80 then "A"
  else if percentage ≥ 70 then "B"
  else if percentage ≥ 60 then "C"
  else if percentage ≥ 50 then "D"
  else "F"

/-- The summary dict of `AnswerEvaluator.calculate_test_score`; `analytics`
is `none` in the early-return branch for a zero total max score, which omits
the `analytics` key. -/
structure TestSummary where
  total_score : Int
  total_max_score : Nat
  percentage : ℚ
  grade : String
  analytics : Option Analytics
deriving Repr, DecidableEq

/-- `AnswerEvaluator.calculate_test_score`: sum scores and max scores,
early-return on a zero denominator, otherwise percentage and grade. -/
def calculateTestScore (results : List EvalResult) : TestSummary :=
  let total_score : Int := (results.map (fun r => r.score)).sum
  let total_max_score : Nat := (results.map (fun r => r.max_score)).sum
  if total_max_score = 0 then
    { total_score := 0
      total_max_score := 0
      percentage := 0
      grade := "F"
      analytics := none }
  else
    let percentage : ℚ := (total_score : ℚ) / (total_max_score : ℚ) * 100
    { total_score := total_score
      total_max_score := total_max_score
      percentage := percentage
      grade := getGrade percentage
      analytics := some (calculateAnalytics results) }

/-- The `Question` dataclass of `app.py` (options omitted: selection and
timing read only type and marks; scoring fields kept for completeness). -/
structure AppQuestion where
  text : String
  qtype : String
  marks : Nat
  correct_answer : Option String
  hint : Option String
deriving Repr, DecidableEq

/-- `random.sample(population, k)` in `configure_test_page`, modelled by the
index list `pick` of the draws: element `i` of the population for each
drawn index, in draw order.  A faithful sample is duplicate-free and
in-range, which the theorems take as hypotheses. -/
def sampleBy (l : List AppQuestion) (pick : List Nat) : List AppQuestion :=
  pick.filterMap (fun i => l.get? i)

/-- The per-type selection of `configure_test_page` (`app.py`): filter the
bank to the type, then either draw `random.sample(type_questions,
num_select)` (modelled by `pick`) or take the first `num_select`. -/
def selectForType (bank : List AppQuestion) (t : String) (numSelect : Nat)
    (randomize : Bool) (pick : List Nat) : List AppQuestion :=
  let typeQuestions := bank.filter (fun q => q.qtype == t)
  if numSelect > 0 then
    if randomize then sampleBy typeQuestions pick
    else typeQuestions.take numSelect
  else []

/-- The selection loop of `configure_test_page`: extend the selection with
each type's draw, in the order the types are iterated. -/
def selectQuestions (bank : List AppQuestion) (types : List String)
    (count : String → Nat) (randomize : Bool) (pick : String → List Nat) :
    List AppQuestion :=
  types.flatMap (fun t => selectForType bank t (count t) randomize (pick t))

/-- `total_marks = sum(q.marks for q in selected_questions)` in
`configure_test_page`. -/
def totalMarks (selected : List AppQuestion) : Nat :=
  (selected.map (fun q => q.marks)).sum

/-- The session-state fields of `app.py` that drive the test pages:
`test_active`, `user_answers`, `current_question`, `test_start_time`, and
the configured `time_limit` (minutes).  Timestamps are rationals standing
for `time.time()` values. -/
structure AppTestState where
  test_active : Bool
  user_answers : List (Nat × String)
  current_question : Nat
  test_start_time : ℚ
  time_limit : ℚ
deriving Repr, DecidableEq

/-- Dict update `st.session_state.user_answers[i] = a`. -/
def setAnswer (answers : List (Nat × String)) (i : Nat) (a : String) :
    List (Nat × String) :=
  (i, a) :: answers.filter (fun p => !(p.1 == i))

/-- `finish_test` in `app.py`: deactivate the test (scoring and result
rendering leave the answer map untouched). -/
def finishTest (s : AppTestState) : AppTestState :=
  { s with test_active := false }

/-- One user interaction with `take_test_page`: record an answer for a
question, navigate, click finish, or merely reload the page. -/
inductive TestInteraction where
  | recordAnswer (i : Nat) (a : String)
  | navigate (i : Nat)
  | finishClick
  | refresh
deriving Repr, DecidableEq

/-- One run of `take_test_page` (`app.py`) at wall-clock time `now`: bail
out if no test is active; recompute `remaining_time = time_limit * 60 -
(now - test_start_time)` and finish immediately when it is `≤ 0` (before
any answer widget is rendered); otherwise apply the interaction. -/
def takeTestStep (s : AppTestState) (now : ℚ) (act : TestInteraction) :
    AppTestState :=
  if s.test_active = false then s
  else
    let elapsed := now - s.test_start_time
    let remaining := s.time_limit * 60 - elapsed
    if remaining ≤ 0 then finishTest s
    else
      match act with
      | .recordAnswer i a => { s with user_answers := setAnswer s.user_answers i a }
      | .navigate i => { s with current_question := i }
      | .finishClick => finishTest s
      | .refresh => s

/-! ### Concrete scenario data -/

/-- The concrete session of §8 of the spec: three 1-mark MCQs with correct
labels A, B, C answered A, B, D, and two 2-mark open-ended questions
skipped. -/
def c3Results : List EvalResult :=
  [ evaluateAnswer ⟨"q1", "A", none⟩ "A" "mcq" false .failure,
    evaluateAnswer ⟨"q2", "B", none⟩ "B" "mcq" false .failure,
    evaluateAnswer ⟨"q3", "C", none⟩ "D" "mcq" false .failure,
    evaluateAnswer ⟨"q4", "", none⟩ "" "2_mark" true .failure,
    evaluateAnswer ⟨"q5", "", none⟩ "" "2_mark" true .failure ]

/-- A twenty-word answer: enough words for the word-count fallback to award
the full 2 marks of a `2_mark` question. -/
def c10Answer : String :=
  "a a a a a a a a a a a a a a a a a a a a"

/-- A small bank for instantiating the selection theorem. -/
def c8Bank : List AppQuestion :=
  [ ⟨"What is X?", "mcq", 1, some "A", none⟩,
    ⟨"What is Y?", "mcq", 1, some "B", none⟩,
    ⟨"Discuss Z.", "2_mark", 2, none, none⟩ ]

/-! ### Helper lemmas -/

/-- In the non-degenerate branch of `calculate_test_score`, the percentage
is `total / total_max * 100` and the grade is obtained from it. -/
theorem summary_of_nonzero_max (rs : List EvalResult)
    (h : (rs.map (fun r => r.max_score)).sum ≠ 0) :
    (calculateTestScore rs).percentage
      = (((rs.map (fun r => r.score)).sum : Int) : ℚ)
          / (((rs.map (fun r => r.max_score)).sum : Nat) : ℚ) * 100
    ∧ (calculateTestScore rs).grade
        = getGrade ((calculateTestScore rs).percentage) := by
  unfold calculateTestScore
  rw [if_neg h]
  exact ⟨rfl, rfl⟩

/-- A sample over in-range indices has one element per index. -/
theorem sampleBy_length (l : List AppQuestion) (pick : List Nat)
    (h : ∀ i ∈ pick, i < l.length) : (sampleBy l pick).length = pick.length := by
  induction pick with
  | nil => rfl
  | cons i rest ih =>
    have hi : i < l.length := h i (by simp)
    have ih' := ih (fun j hj => h j (by simp [hj]))
    show (List.filterMap (fun i => l.get? i) (i :: rest)).length = (i :: rest).length
    rw [List.filterMap_cons_some (List.get?_eq_get hi), List.length_cons,
      List.length_cons]
    exact congrArg (· + 1) ih'

/-- Every sampled element comes from the population. -/
theorem sampleBy_mem (l : List AppQuestion) (pick : List Nat) (q : AppQuestion)
    (h : q ∈ sampleBy l pick) : q ∈ l := by
  simp only [sampleBy, List.mem_filterMap] at h
  obtain ⟨i, _, hget⟩ := h
  exact List.get?_mem hget

/-- Sampling a duplicate-free population at duplicate-free in-range indices
yields a duplicate-free selection. -/
theorem sampleBy_nodup (l : List AppQuestion) (pick : List Nat)
    (hl : l.Nodup) (hp : pick.Nodup)
    (hb : ∀ i ∈ pick, i < l.length) : (sampleBy l pick).Nodup := by
  induction pick with
  | nil => exact List.nodup_nil
  | cons i rest ih =>
    have hi : i < l.length := hb i (by simp)
    have hrest : (sampleBy l rest).Nodup :=
      ih (List.Nodup.of_cons hp) (fun j hj => hb j (by simp [hj]))
    show (List.filterMap (fun i => l.get? i) (i :: rest)).Nodup
    rw [List.filterMap_cons_some (List.get?_eq_get hi)]
    refine List.Nodup.cons ?_ hrest
    intro hmem
    simp only [sampleBy, List.mem_filterMap] at hmem
    obtain ⟨j, hjrest, hjget⟩ := hmem
    have hj : j < l.length := hb j (by simp [hjrest])
    rw [List.get?_eq_get hj] at hjget
    have hfin : (⟨j, hj⟩ : Fin l.length) = ⟨i, hi⟩ :=
      (hl.get_inj_iff).mp (by simpa using hjget)
    have hji : j = i := by simpa using hfin
    exact (List.nodup_cons.mp hp).1 (hji ▸ hjrest)

/-! ### Claim theorems -/

/-- C1 (counterexample): the claim that the `AnswerEvaluator` fallback
awards `floor(mark_value / 2)` is false — for a 5-mark open-ended question
whose grading call fails and a two-word answer, the fallback score is
`min(5, 2 // 10) = 0`, not 2, and the feedback string also differs from the
claimed one. -/
theorem fallback_not_half_marks :
    (evaluateSubjectiveAnswer ⟨"Explain the theme.", "", none⟩ "short answer"
        "5_mark" .failure).score ≠ 2
    ∧ (evaluateSubjectiveAnswer ⟨"Explain the theme.", "", none⟩ "short answer"
        "5_mark" .failure).feedback
      ≠ "automatic evaluation failed — manual review recommended" := by decide

/-- C1 (amended): when the external grading call fails or returns
unparseable content, `_fallback_evaluation` produces score
`min(mark_value, word_count // 10)`, the fixed feedback "Automatic
evaluation failed. Manual review recommended.", and the evaluation-type tag
`fallback`, distinct from the AI-graded tag `subjective`. -/
theorem fallback_policy (q : Question) (ua qt : String) (resp : AIResponse)
    (h : resp = .failure ∨ resp = .unparseable) :
    (evaluateSubjectiveAnswer q ua qt resp).score
        = ((min (scoringOf qt) ((pyWords ua).length / 10) : Nat) : Int)
    ∧ (evaluateSubjectiveAnswer q ua qt resp).feedback
        = "Automatic evaluation failed. Manual review recommended."
    ∧ (evaluateSubjectiveAnswer q ua qt resp).evaluation_type = "fallback"
    ∧ (evaluateSubjectiveAnswer q ua qt resp).evaluation_type ≠ "subjective" := by
  rcases h with rfl | rfl <;> simp [evaluateSubjectiveAnswer, fallbackEvaluation]

/-- C1 witness: the amended fallback policy at a concrete failed call. -/
theorem fallback_policy_witness :
    (evaluateSubjectiveAnswer ⟨"Summarise the chapter.", "", none⟩ "a short reply"
        "5_mark" .failure).evaluation_type = "fallback" :=
  (fallback_policy ⟨"Summarise the chapter.", "", none⟩ "a short reply" "5_mark"
    .failure (Or.inl rfl)).2.2.1

/-- C2: for a multiple-choice question and a non-blank submitted answer,
the score is the full mark value (`SCORING['mcq'] = 1`) exactly when the
uppercased submitted label equals the uppercased stored correct label, else
0, with the deterministic "Correct"/"Incorrect" feedback either way. -/
theorem mcq_scoring (q : Question) (ua : String) (resp : AIResponse)
    (h : pyStrip ua ≠ "") :
    ((evaluateAnswer q ua "mcq" false resp).max_score = scoringOf "mcq")
    ∧ ((evaluateAnswer q ua "mcq" false resp).score = (scoringOf "mcq" : Int)
        ↔ pyUpper ua = pyUpper q.correct_answer)
    ∧ (pyUpper ua = pyUpper q.correct_answer →
        (evaluateAnswer q ua "mcq" false resp).correct = true
        ∧ (evaluateAnswer q ua "mcq" false resp).feedback
            = "Correct! " ++ q.explanation.getD "Good job!")
    ∧ (pyUpper ua ≠ pyUpper q.correct_answer →
        (evaluateAnswer q ua "mcq" false resp).score = 0
        ∧ (evaluateAnswer q ua "mcq" false resp).correct = false
        ∧ (evaluateAnswer q ua "mcq" false resp).feedback
            = "Incorrect. The correct answer is " ++ pyUpper q.correct_answer
                ++ ". " ++ q.explanation.getD "") := by
  have hne : ¬(ua = "" ∨ pyStrip ua = "") := by
    rintro (rfl | h2)
    · exact h rfl
    · exact h h2
  by_cases hc : pyUpper ua = pyUpper q.correct_answer <;>
    simp [evaluateAnswer, evaluateMcqAnswer, hne, hc, scoringOf]

/-- C2 witness: a lowercase stored label matched case-insensitively. -/
theorem mcq_scoring_witness :
    (evaluateAnswer ⟨"q", "b", none⟩ "B" "mcq" false .failure).score
      = (scoringOf "mcq" : Int) :=
  ((mcq_scoring ⟨"q", "b", none⟩ "B" .failure (by decide)).2.1).mpr (by decide)

/-- C3 (counterexample): in the concrete A/B/D-plus-two-skips session the
attempted count is not 2 — the `attempted` counter excludes only `skipped`
results, so the three answered MCQs make it 3. -/
theorem concrete_session_attempted_ne_two :
    ((calculateTestScore c3Results).analytics).map Analytics.attempted
      ≠ some 2 := by decide

/-- C3 (amended): the concrete session yields total score 2 of 7,
percentage 200/7 (≈ 28.6), grade "F", skipped count 2 — and attempted
count 3, not 2. -/
theorem concrete_session_summary :
    (calculateTestScore c3Results).total_score = 2
    ∧ (calculateTestScore c3Results).total_max_score = 7
    ∧ (calculateTestScore c3Results).percentage = 200 / 7
    ∧ (calculateTestScore c3Results).grade = "F"
    ∧ (calculateTestScore c3Results).analytics
        = some { total_questions := 5, attempted := 3, skipped := 2, correct := 2 } := by
  have h := summary_of_nonzero_max c3Results (by decide)
  have hs : ((c3Results.map (fun r => r.score)).sum : Int) = 2 := by decide
  have hm : ((c3Results.map (fun r => r.max_score)).sum : Nat) = 7 := by decide
  have hp : (calculateTestScore c3Results).percentage = 200 / 7 := by
    rw [h.1, hs, hm]; norm_num
  refine ⟨by decide, by decide, hp, ?_, by decide⟩
  rw [h.2, hp]
  norm_num [getGrade]

/-- C4: the letter grade of `_get_grade` follows the six bands A+ (≥ 90),
A (≥ 80), B (≥ 70), C (≥ 60), D (≥ 50), F (otherwise). -/
theorem grade_bands (p : ℚ) :
    (90 ≤ p → getGrade p = "A+")
    ∧ (80 ≤ p → p < 90 → getGrade p = "A")
    ∧ (70 ≤ p → p < 80 → getGrade p = "B")
    ∧ (60 ≤ p → p < 70 → getGrade p = "C")
    ∧ (50 ≤ p → p < 60 → getGrade p = "D")
    ∧ (p < 50 → getGrade p = "F") := by
  unfold getGrade
  refine ⟨?_, ?_, ?_, ?_, ?_, ?_⟩ <;> intros <;> split_ifs <;>
    first | rfl | (exfalso; linarith)

/-- C4 witness: the top band at percentage 95. -/
theorem grade_bands_witness : getGrade 95 = "A+" :=
  (grade_bands 95).1 (by norm_num)

/-- C5: every result of the open-ended grading path satisfies
`0 ≤ score ≤ max_score`, and on a successfully parsed reply the stored
score is exactly the clamp `max(0, min(reply_score, mark_value))`. -/
theorem subjective_score_clamped (q : Question) (ua qt : String)
    (resp : AIResponse) (ev : AIEval) :
    (0 ≤ (evaluateSubjectiveAnswer q ua qt resp).score
      ∧ (evaluateSubjectiveAnswer q ua qt resp).score
          ≤ ((evaluateSubjectiveAnswer q ua qt resp).max_score : Int))
    ∧ (evaluateSubjectiveAnswer q ua qt (.parsed ev)).score
        = max 0 (min ev.score ((scoringOf qt : Nat) : Int)) := by
  constructor
  · cases resp <;> simp [evaluateSubjectiveAnswer, fallbackEvaluation] <;> omega
  · simp [evaluateSubjectiveAnswer]

/-- C6 (counterexample): an unanswered (non-skipped, empty-answer) question
is counted in `attempted` — a session with one unanswered question reports
attempted = 1, where the claim expects 0. -/
theorem unanswered_counted_attempted :
    ((calculateTestScore [evaluateAnswer ⟨"q", "A", none⟩ "" "mcq" false
        .failure]).analytics).map Analytics.attempted = some 1
    ∧ (1 : Nat) ≠ 0 := by decide

/-- C6 (amended): skipped and unanswered questions score 0 with their fixed
feedback strings and keep their mark value in the total-max denominator;
skipped results are excluded from the attempted count, but unanswered
(`no_answer`) results are included in it. -/
theorem skipped_unanswered_scoring (q : Question) (ua qt : String)
    (resp : AIResponse) (rs : List EvalResult) :
    ((evaluateAnswer q ua qt true resp).score = 0
      ∧ (evaluateAnswer q ua qt true resp).feedback = "Question was skipped."
      ∧ (evaluateAnswer q ua qt true resp).evaluation_type = "skipped"
      ∧ (evaluateAnswer q ua qt true resp).max_score = scoringOf qt)
    ∧ ((evaluateAnswer q "" qt false resp).score = 0
      ∧ (evaluateAnswer q "" qt false resp).feedback = "No answer provided."
      ∧ (evaluateAnswer q "" qt false resp).evaluation_type = "no_answer"
      ∧ (evaluateAnswer q "" qt false resp).max_score = scoringOf qt)
    ∧ (calculateAnalytics (rs ++ [evaluateAnswer q ua qt true resp])).attempted
        = (calculateAnalytics rs).attempted
    ∧ (calculateAnalytics (rs ++ [evaluateAnswer q "" qt false resp])).attempted
        = (calculateAnalytics rs).attempted + 1
    ∧ (calculateTestScore (rs ++ [evaluateAnswer q ua qt true resp])).total_max_score
        = (rs.map (fun r => r.max_score)).sum + scoringOf qt := by
  have hscoring : 1 ≤ scoringOf qt := by
    unfold scoringOf; split_ifs <;> norm_num
  refine ⟨by simp [evaluateAnswer], by simp [evaluateAnswer], ?_, ?_, ?_⟩
  · simp [calculateAnalytics, evaluateAnswer, List.filter_append]
  · simp [calculateAnalytics, evaluateAnswer, List.filter_append]
  · have hsum : ((rs ++ [evaluateAnswer q ua qt true resp]).map
        (fun r => r.max_score)).sum
          = (rs.map (fun r => r.max_score)).sum + scoringOf qt := by
      simp [evaluateAnswer]
    unfold calculateTestScore
    rw [if_neg (by omega)]
    exact hsum

/-- C7: once the wall-clock elapsed time reaches or exceeds the time limit,
the next run of `take_test_page` observes the timeout (recomputed from the
stored start timestamp and the current time — there is no background
timer), deactivates the test with the answer map unchanged, and every later
interaction leaves the finalized state untouched. -/
theorem timeout_on_next_interaction (s : AppTestState) (now : ℚ)
    (act : TestInteraction) (hactive : s.test_active = true)
    (htime : s.time_limit * 60 ≤ now - s.test_start_time) :
    (takeTestStep s now act).test_active = false
    ∧ (takeTestStep s now act).user_answers = s.user_answers
    ∧ ∀ (later : ℚ) (act2 : TestInteraction),
        takeTestStep (takeTestStep s now act) later act2 = takeTestStep s now act := by
  have hrem : s.time_limit * 60 - (now - s.test_start_time) ≤ 0 := by linarith
  have hstep : takeTestStep s now act = finishTest s := by
    simp [takeTestStep, hactive, hrem]
  refine ⟨by simp [hstep, finishTest], by simp [hstep, finishTest], ?_⟩
  intro later act2
  rw [hstep]
  simp [takeTestStep, finishTest]

/-- C7 witness: a zero-minute time limit times out on the very first
interaction and the attempted late answer is not recorded. -/
theorem timeout_witness :
    (takeTestStep ⟨true, [], 0, 0, 0⟩ 0 (.recordAnswer 0 "late answer")).test_active
      = false
    ∧ (takeTestStep ⟨true, [], 0, 0, 0⟩ 0 (.recordAnswer 0 "late answer")).user_answers
      = [] := by
  have h := timeout_on_next_interaction ⟨true, [], 0, 0, 0⟩ 0
    (.recordAnswer 0 "late answer") rfl (by norm_num)
  exact ⟨h.1, h.2.1⟩

/-- C8: with per-category counts within the pool, the non-randomized
selection takes exactly the first `count` questions of each category in
bank order; the randomized selection (a duplicate-free in-range sample)
yields `count` questions, all from that category of the bank, without
duplicates; and the total marks are the sum of the selected questions'
mark values. -/
theorem test_builder_selection (bank : List AppQuestion) (types : List String)
    (count : String → Nat) (pick : String → List Nat)
    (hcount : ∀ t ∈ types, count t ≤ (bank.filter (fun q => q.qtype == t)).length)
    (hlen : ∀ t ∈ types, (pick t).length = count t)
    (hnodupPick : ∀ t ∈ types, (pick t).Nodup)
    (hbound : ∀ t ∈ types, ∀ i ∈ pick t,
        i < (bank.filter (fun q => q.qtype == t)).length)
    (hbank : bank.Nodup) :
    (∀ t ∈ types,
        selectForType bank t (count t) false (pick t)
          = (bank.filter (fun q => q.qtype == t)).take (count t)
        ∧ (selectForType bank t (count t) false (pick t)).length = count t)
    ∧ (∀ t ∈ types,
        (selectForType bank t (count t) true (pick t)).length = count t
        ∧ (∀ q ∈ selectForType bank t (count t) true (pick t),
            q ∈ bank ∧ q.qtype = t)
        ∧ (selectForType bank t (count t) true (pick t)).Nodup)
    ∧ (∀ r : Bool, totalMarks (selectQuestions bank types count r pick)
          = ((selectQuestions bank types count r pick).map (fun q => q.marks)).sum) := by
  refine ⟨?_, ?_, fun r => rfl⟩
  · intro t ht
    constructor
    · by_cases h0 : count t = 0
      · simp [selectForType, h0]
      · simp [selectForType, Nat.pos_of_ne_zero h0]
    · by_cases h0 : count t = 0
      · simp [selectForType, h0]
      · simp only [selectForType, if_pos (Nat.pos_of_ne_zero h0), if_neg]
        rw [if_neg (by simp)]
        rw [List.length_take]
        exact Nat.min_eq_left (hcount t ht)
  · intro t ht
    by_cases h0 : count t = 0
    · refine ⟨?_, ?_, ?_⟩ <;> simp [selectForType, h0]
    · have hsel : selectForType bank t (count t) true (pick t)
          = sampleBy (bank.filter (fun q => q.qtype == t)) (pick t) := by
        simp [selectForType, Nat.pos_of_ne_zero h0]
      refine ⟨?_, ?_, ?_⟩
      · rw [hsel, sampleBy_length _ _ (hbound t ht)]
        exact hlen t ht
      · intro q hq
        rw [hsel] at hq
        have hmem := sampleBy_mem _ _ _ hq
        have := List.mem_filter.mp hmem
        exact ⟨this.1, by simpa using this.2⟩
      · rw [hsel]
        exact sampleBy_nodup _ _ (hbank.filter _) (hnodupPick t ht) (hbound t ht)

/-- C8 witness: selecting one MCQ from the concrete bank without
randomization takes the first MCQ in bank order. -/
theorem test_builder_selection_witness :
    selectForType c8Bank "mcq" 1 false [1]
      = (c8Bank.filter (fun q => q.qtype == "mcq")).take 1 :=
  ((test_builder_selection c8Bank ["mcq"] (fun _ => 1) (fun _ => [1])
      (by decide) (by decide) (by decide) (by decide) (by decide)).1
    "mcq" (by decide)).1

/-- C9: the aggregation is a pure function of the per-question results —
equal result lists yield the identical summary (total, max, percentage,
grade, analytics). -/
theorem score_deterministic (rs1 rs2 : List EvalResult) (h : rs1 = rs2) :
    calculateTestScore rs1 = calculateTestScore rs2 := by rw [h]

/-- C9 witness: the empty result list. -/
theorem score_deterministic_witness :
    calculateTestScore [] = calculateTestScore [] :=
  score_deterministic [] [] rfl

/-- C10: when AI evaluation fails, the `AnswerEvaluator` fallback scores
`min(max_marks, word_count // 10)`; with at least `10 * max_marks` words it
awards the full marks with `correct = True`, tagged `fallback`, even though
no grading occurred. -/
theorem fallback_word_count (q : Question) (ua qt : String)
    (h : 10 * scoringOf qt ≤ (pyWords ua).length) :
    (fallbackEvaluation q ua qt).score
        = ((min (scoringOf qt) ((pyWords ua).length / 10) : Nat) : Int)
    ∧ (fallbackEvaluation q ua qt).score = (scoringOf qt : Int)
    ∧ (fallbackEvaluation q ua qt).correct = true
    ∧ (fallbackEvaluation q ua qt).evaluation_type = "fallback" := by
  have h10 : scoringOf qt ≤ (pyWords ua).length / 10 :=
    (Nat.le_div_iff_mul_le (by norm_num)).mpr (by omega)
  simp [fallbackEvaluation, Nat.min_eq_left h10]

/-- C10 witness: a twenty-word answer to a 2-mark question gets the full 2
marks from the fallback. -/
theorem fallback_word_count_witness :
    (fallbackEvaluation ⟨"q", "", none⟩ c10Answer "2_mark").score
        = (scoringOf "2_mark" : Int)
    ∧ (fallbackEvaluation ⟨"q", "", none⟩ c10Answer "2_mark").correct = true :=
  ⟨(fallback_word_count ⟨"q", "", none⟩ c10Answer "2_mark" (by decide)).2.1,
   (fallback_word_count ⟨"q", "", none⟩ c10Answer "2_mark" (by decide)).2.2.1⟩

end RagGemini
